import Mathlib

/-!
Shallow embedding of the MP3paraMIDI audio-to-MIDI conversion core
(`src/mp3paramidi`), covering the note data model, the note quantizer
(`midi/quantizer.py`), the note filter (`audio/note_filter.py`), the MIDI
generator (`midi/generator.py`), the velocity model and empty-input guard of
the pitch detector (`audio/pitch_detector.py`), the tempo-confidence estimate
(`audio/tempo_detector.py`), and the monophonic / AI orchestration stages of
the pipeline (`audio/pipeline.py`).

Numeric conventions: Python floats are embedded as exact arithmetic — `ℚ`
where the code only adds, multiplies, divides and compares, and `ℝ` where it
takes square roots, `tanh` or non-integer powers.  Python `int` values are
`ℤ`/`ℕ`.  Library calls (librosa pitch tracking, onset detection, beat
tracking, RMS) are out-of-scope collaborators and enter as function
parameters or as an interface-level model noted at the definition.
-/

namespace MP3paraMIDI

/-- `NoteEvent` from `audio/pitch_detector.py`: a detected musical note with
start/end times in seconds, fundamental frequency, MIDI note number,
velocity and confidence. -/
structure NoteEvent where
  start_time : ℚ
  end_time : ℚ
  pitch_hz : ℚ
  midi_note : ℤ
  velocity : ℤ
  confidence : ℚ
deriving DecidableEq, Repr

/-- `QuantizationGrid` from `midi/quantizer.py`: grid sizes as beat
fractions. -/
inductive QuantizationGrid
  | QUARTER
  | EIGHTH
  | SIXTEENTH
  | THIRTY_SECOND
  | NONE
deriving DecidableEq, Repr

/-- The numeric value carried by each `QuantizationGrid` enum member. -/
def QuantizationGrid.value : QuantizationGrid → ℚ
  | .QUARTER => 1
  | .EIGHTH => 1/2
  | .SIXTEENTH => 1/4
  | .THIRTY_SECOND => 1/8
  | .NONE => 0

/-- Python's built-in `round` on an exact value: round half to even. -/
def pyRound (x : ℚ) : ℤ :=
  let f := ⌊x⌋
  let r := x - f
  if r < 1/2 then f
  else if 1/2 < r then f + 1
  else if f % 2 = 0 then f else f + 1

/-- `NoteQuantizer` dataclass from `midi/quantizer.py` (fields `grid`,
`tempo`, `swing`). -/
structure NoteQuantizer where
  grid : QuantizationGrid
  tempo : ℚ
  swing : ℚ
deriving DecidableEq, Repr

/-- `NoteQuantizer._calculate_grid_size`: grid unit duration in seconds,
`60 / tempo * grid.value` (0 for the `NONE` grid). -/
def _calculate_grid_size (tempo : ℚ) (grid : QuantizationGrid) : ℚ :=
  if grid = QuantizationGrid.NONE then 0
  else 60 / tempo * grid.value

/-- `NoteQuantizer.quantize_single_note`: snap `start_time` and `end_time`
to the nearest grid multiple and enforce a minimum duration of one grid
unit. -/
def NoteQuantizer.quantize_single_note (q : NoteQuantizer) (note : NoteEvent) : NoteEvent :=
  if q.grid = QuantizationGrid.NONE then note
  else
    let grid_size := _calculate_grid_size q.tempo q.grid
    let quantized_start := (pyRound (note.start_time / grid_size) : ℚ) * grid_size
    let quantized_end0 := (pyRound (note.end_time / grid_size) : ℚ) * grid_size
    let quantized_end :=
      if quantized_end0 - quantized_start < grid_size then quantized_start + grid_size
      else quantized_end0
    { start_time := quantized_start
      end_time := quantized_end
      pitch_hz := note.pitch_hz
      midi_note := note.midi_note
      velocity := note.velocity
      confidence := note.confidence }

/-- `NoteQuantizer.quantize_notes`: the `NONE` grid returns a copy of the
list; otherwise each note is quantized in order. -/
def NoteQuantizer.quantize_notes (q : NoteQuantizer) (note_events : List NoteEvent) :
    List NoteEvent :=
  if q.grid = QuantizationGrid.NONE then note_events
  else note_events.map q.quantize_single_note

/-- The default quantizer of the repository's tests and pipeline scenario:
sixteenth grid at 120 BPM. -/
def q16 : NoteQuantizer := ⟨QuantizationGrid.SIXTEENTH, 120, 0⟩

/-- The spec's quantization-scenario note: `start=0.05`, `end=0.55`, A4. -/
def specNote : NoteEvent := ⟨1/20, 11/20, 440, 69, 90, 1⟩

section QuantizerLemmas

lemma pyRound_intCast (m : ℤ) : pyRound (m : ℚ) = m := by
  simp [pyRound]

lemma value_ne_zero {g : QuantizationGrid} (h : g ≠ QuantizationGrid.NONE) :
    g.value ≠ 0 := by
  cases g <;> first | exact absurd rfl h | norm_num [QuantizationGrid.value]

lemma grid_size_ne_zero {q : NoteQuantizer} (hg : q.grid ≠ QuantizationGrid.NONE)
    (ht : q.tempo ≠ 0) : _calculate_grid_size q.tempo q.grid ≠ 0 := by
  simp only [_calculate_grid_size, if_neg hg]
  exact mul_ne_zero (div_ne_zero (by norm_num) ht) (value_ne_zero hg)

/-- One quantization pass sends both times to integer multiples of the grid
unit whose difference is at least one unit; a second pass is then the
identity. -/
lemma quantize_single_note_idem (q : NoteQuantizer)
    (hg : q.grid ≠ QuantizationGrid.NONE) (ht : q.tempo ≠ 0) (note : NoteEvent) :
    q.quantize_single_note (q.quantize_single_note note) = q.quantize_single_note note := by
  have hgs := grid_size_ne_zero hg ht
  set g := _calculate_grid_size q.tempo q.grid with hgdef
  have key : ∀ m : ℤ, pyRound ((m : ℚ) * g / g) = m := fun m => by
    rw [mul_div_cancel_right₀ _ hgs, pyRound_intCast]
  simp only [NoteQuantizer.quantize_single_note, if_neg hg, ← hgdef]
  set a := pyRound (note.start_time / g) with ha
  set b := pyRound (note.end_time / g) with hb
  by_cases hlt : (b : ℚ) * g - (a : ℚ) * g < g
  · rw [if_pos hlt]
    simp only [key]
    have hsum : (a : ℚ) * g + g = ((a + 1 : ℤ) : ℚ) * g := by push_cast; ring
    rw [hsum, key]
    have heq : ((a + 1 : ℤ) : ℚ) * g - (a : ℚ) * g = g := by push_cast; ring
    rw [heq, if_neg (lt_irrefl g), ← hsum]
  · rw [if_neg hlt]
    simp only [key]
    rw [if_neg hlt]

end QuantizerLemmas

/-- C4: `quantize_notes` is idempotent — for every note list, every grid
other than `NONE` and every nonzero tempo, quantizing twice with the same
grid and tempo gives exactly the list obtained by quantizing once. -/
theorem quantize_notes_idempotent (q : NoteQuantizer)
    (hg : q.grid ≠ QuantizationGrid.NONE) (ht : q.tempo ≠ 0)
    (note_events : List NoteEvent) :
    q.quantize_notes (q.quantize_notes note_events) = q.quantize_notes note_events := by
  simp only [NoteQuantizer.quantize_notes, if_neg hg, List.map_map]
  exact List.map_congr_left fun n _ => quantize_single_note_idem q hg ht n

/-- Witness for C4: idempotence at the sixteenth grid, tempo 120, on the
spec's scenario note `start=0.05, end=0.55`. -/
theorem quantize_notes_idempotent_witness :
    q16.grid ≠ QuantizationGrid.NONE ∧ q16.tempo ≠ 0 ∧
      q16.quantize_notes (q16.quantize_notes [specNote]) =
        q16.quantize_notes [specNote] :=
  ⟨by decide, by norm_num [q16],
    quantize_notes_idempotent q16 (by decide) (by norm_num [q16]) [specNote]⟩

/-- C5: for every note and every grid other than `NONE`, the quantized note
satisfies `end_time - start_time ≥ grid_unit_seconds` where
`grid_unit_seconds = 60 / tempo * grid_fraction`. -/
theorem quantize_single_note_min_duration (q : NoteQuantizer)
    (hg : q.grid ≠ QuantizationGrid.NONE) (note : NoteEvent) :
    (q.quantize_single_note note).end_time - (q.quantize_single_note note).start_time ≥
      _calculate_grid_size q.tempo q.grid := by
  unfold NoteQuantizer.quantize_single_note
  rw [if_neg hg]
  set g := _calculate_grid_size q.tempo q.grid
  set s := (pyRound (note.start_time / g) : ℚ) * g
  set e := (pyRound (note.end_time / g) : ℚ) * g
  by_cases hlt : e - s < g
  · simp only [if_pos hlt]
    simp
  · simp only [if_neg hlt]
    exact le_of_not_lt hlt

/-- Witness for C5: the spec's scenario — sixteenth grid at tempo 120
(unit 0.125 s) on the note `start=0.05, end=0.55`. -/
theorem quantize_single_note_min_duration_witness :
    q16.grid ≠ QuantizationGrid.NONE ∧
      (q16.quantize_single_note specNote).end_time -
          (q16.quantize_single_note specNote).start_time ≥
        _calculate_grid_size q16.tempo q16.grid :=
  ⟨by decide, quantize_single_note_min_duration q16 (by decide) specNote⟩

/-- Unfolded form of `quantize_single_note` on a grid other than `NONE`,
used to evaluate the quantizer on concrete inputs. -/
lemma quantize_single_note_def (q : NoteQuantizer)
    (hg : q.grid ≠ QuantizationGrid.NONE) (note : NoteEvent) :
    q.quantize_single_note note =
      { start_time := (pyRound (note.start_time / (60 / q.tempo * q.grid.value)) : ℚ) *
          (60 / q.tempo * q.grid.value)
        end_time :=
          if (pyRound (note.end_time / (60 / q.tempo * q.grid.value)) : ℚ) *
                (60 / q.tempo * q.grid.value) -
              (pyRound (note.start_time / (60 / q.tempo * q.grid.value)) : ℚ) *
                (60 / q.tempo * q.grid.value) <
              60 / q.tempo * q.grid.value then
            (pyRound (note.start_time / (60 / q.tempo * q.grid.value)) : ℚ) *
                (60 / q.tempo * q.grid.value) +
              60 / q.tempo * q.grid.value
          else
            (pyRound (note.end_time / (60 / q.tempo * q.grid.value)) : ℚ) *
              (60 / q.tempo * q.grid.value)
        pitch_hz := note.pitch_hz
        midi_note := note.midi_note
        velocity := note.velocity
        confidence := note.confidence } := by
  simp only [NoteQuantizer.quantize_single_note, _calculate_grid_size, if_neg hg]

/-- The spec's quantization scenario holds in the model: sixteenth grid at
tempo 120 snaps `start=0.05, end=0.55` to `start=0, end=0.5`. -/
example : q16.quantize_single_note specNote = ⟨0, 1/2, 440, 69, 90, 1⟩ := by
  rw [quantize_single_note_def q16 (by decide)]
  norm_num [q16, specNote, QuantizationGrid.value, pyRound, NoteEvent.mk.injEq]

/-! ### Note filter (`audio/note_filter.py`) -/

/-- `FilterConfig` dataclass from `audio/note_filter.py`. -/
structure FilterConfig where
  min_confidence : ℚ
  min_duration : ℚ
  max_duration : ℚ
  remove_outliers : Bool
  outlier_std_threshold : ℚ
  min_velocity : ℤ
deriving DecidableEq, Repr

/-- The default `FilterConfig` values of `audio/note_filter.py`. -/
def defaultFilterConfig : FilterConfig := ⟨3/10, 1/20, 10, true, 3, 20⟩

/-- `NoteFilter._filter_by_confidence`: keep notes with
`confidence ≥ min_confidence`. -/
def _filter_by_confidence (cfg : FilterConfig) (notes : List NoteEvent) : List NoteEvent :=
  notes.filter fun note => cfg.min_confidence ≤ note.confidence

/-- `NoteFilter._filter_by_duration`: keep notes whose duration lies in
`[min_duration, max_duration]`. -/
def _filter_by_duration (cfg : FilterConfig) (notes : List NoteEvent) : List NoteEvent :=
  notes.filter fun note =>
    cfg.min_duration ≤ note.end_time - note.start_time ∧
      note.end_time - note.start_time ≤ cfg.max_duration

/-- `NoteFilter._filter_by_velocity`: keep notes with
`velocity ≥ min_velocity`. -/
def _filter_by_velocity (cfg : FilterConfig) (notes : List NoteEvent) : List NoteEvent :=
  notes.filter fun note => cfg.min_velocity ≤ note.velocity

/-- `np.mean` over an exact list (0 for the empty list, as `sum/0 = 0`
models the guarded uses in the source). -/
def listMean (l : List ℚ) : ℚ := l.sum / l.length

/-- `np.std` (population standard deviation): square root of the mean
squared deviation. -/
noncomputable def npStd (l : List ℚ) : ℝ :=
  Real.sqrt ((listMean (l.map fun x => (x - listMean l)^2) : ℚ) : ℝ)

/-- `NoteFilter._is_outlier`: z-score of the MIDI pitch exceeds
`outlier_std_threshold`. -/
def _is_outlier (cfg : FilterConfig) (note : NoteEvent) (mean_pitch : ℚ)
    (std_pitch : ℝ) : Prop :=
  |(note.midi_note : ℝ) - (mean_pitch : ℝ)| / std_pitch > (cfg.outlier_std_threshold : ℝ)

section RemoveOutliers

open Classical

/-- `NoteFilter._remove_pitch_outliers`: statistical pitch-outlier removal;
identity for fewer than 3 notes or zero standard deviation. -/
noncomputable def _remove_pitch_outliers (cfg : FilterConfig) (notes : List NoteEvent) :
    List NoteEvent :=
  if notes.length < 3 then notes
  else
    let midi_pitches : List ℚ := notes.map fun n => (n.midi_note : ℚ)
    let mean_pitch := listMean midi_pitches
    let std_pitch := npStd midi_pitches
    if std_pitch = 0 then notes
    else notes.filter fun note => !(decide (_is_outlier cfg note mean_pitch std_pitch))

end RemoveOutliers

/-- `NoteFilter.filter_notes`: the filter chain — confidence, duration,
velocity, then (when configured) pitch-outlier removal. -/
noncomputable def filter_notes (cfg : FilterConfig) (note_events : List NoteEvent) :
    List NoteEvent :=
  if note_events = [] then []
  else
    let f1 := _filter_by_confidence cfg note_events
    let f2 := _filter_by_duration cfg f1
    let f3 := _filter_by_velocity cfg f2
    if cfg.remove_outliers then _remove_pitch_outliers cfg f3 else f3

lemma remove_pitch_outliers_length_le (cfg : FilterConfig) (notes : List NoteEvent) :
    (_remove_pitch_outliers cfg notes).length ≤ notes.length := by
  simp only [_remove_pitch_outliers]
  split
  · exact le_rfl
  · split
    · exact le_rfl
    · exact List.length_filter_le _ _

/-- C6: `filter_notes` never increases the note count — for every note list
and every configuration, `len(filter_notes notes) ≤ len(notes)`. -/
theorem filter_notes_length_le (cfg : FilterConfig) (note_events : List NoteEvent) :
    (filter_notes cfg note_events).length ≤ note_events.length := by
  unfold filter_notes
  split
  · simp
  · have h1 : (_filter_by_confidence cfg note_events).length ≤ note_events.length :=
      List.length_filter_le _ _
    have h2 : (_filter_by_duration cfg (_filter_by_confidence cfg note_events)).length ≤
        (_filter_by_confidence cfg note_events).length :=
      List.length_filter_le _ _
    have h3 : (_filter_by_velocity cfg
          (_filter_by_duration cfg (_filter_by_confidence cfg note_events))).length ≤
        (_filter_by_duration cfg (_filter_by_confidence cfg note_events)).length :=
      List.length_filter_le _ _
    split
    · exact le_trans (le_trans (le_trans (remove_pitch_outliers_length_le _ _) h3) h2) h1
    · exact le_trans (le_trans h3 h2) h1

/-! ### Pipeline filtering stages (`audio/pipeline.py`) -/

/-- The note-filtering stage of `_process_monophonic`
(`pipeline.py:350-369`): run `filter_notes`; when a non-empty input is
filtered down to nothing, revert to the unfiltered notes and report 0
filtered; otherwise report the removed count.  Returns the notes the
pipeline continues with and the `notes_filtered` count. -/
noncomputable def noteFilteringStage (cfg : FilterConfig) (note_events : List NoteEvent) :
    List NoteEvent × ℕ :=
  let original_note_count := note_events.length
  let filtered_notes := filter_notes cfg note_events
  if original_note_count ≠ 0 ∧ filtered_notes = [] then (note_events, 0)
  else (filtered_notes, original_note_count - filtered_notes.length)

/-- One iteration of the per-stem filter/quantize loop of `_process_with_ai`
(`pipeline.py:603-628`): the stem's notes are replaced by `filter_notes`
output with no empty-result guard, then quantized when enabled.  Returns the
stem's new note list and its contribution to `notes_filtered`. -/
noncomputable def aiFilterQuantizeStem (cfg : FilterConfig) (quantization_enabled : Bool)
    (q : NoteQuantizer) (notes : List NoteEvent) : List NoteEvent × ℕ :=
  let filtered := filter_notes cfg notes
  let filtered_count := notes.length - filtered.length
  let final := if quantization_enabled then q.quantize_notes filtered else filtered
  (final, filtered_count)

/-- The whole per-stem filter/quantize loop of `_process_with_ai`: maps each
stem through `aiFilterQuantizeStem`, sums the removed counts into
`notes_filtered`, and reports whether quantization was applied. -/
noncomputable def aiFilterQuantizeStage (cfg : FilterConfig) (quantization_enabled : Bool)
    (q : NoteQuantizer) (stems : List (String × List NoteEvent)) :
    List (String × List NoteEvent) × ℕ × Bool :=
  (stems.map fun p => (p.1, (aiFilterQuantizeStem cfg quantization_enabled q p.2).1),
   (stems.map fun p => (aiFilterQuantizeStem cfg quantization_enabled q p.2).2).sum,
   quantization_enabled && !stems.isEmpty)

/-- A note whose confidence 0 is below the default threshold 0.3, so the
default filter chain removes it. -/
def badNote : NoteEvent := ⟨0, 1, 440, 69, 90, 0⟩

lemma filter_badNote : filter_notes defaultFilterConfig [badNote] = [] := by
  have hconf : ¬ (defaultFilterConfig.min_confidence ≤ badNote.confidence) := by
    norm_num [defaultFilterConfig, badNote]
  simp [filter_notes, _filter_by_confidence, _filter_by_duration, _filter_by_velocity,
    _remove_pitch_outliers, hconf]

/-- Counterexample for C2: in the AI path's per-stem filtering loop a
non-empty stem whose notes are all filtered out is NOT reverted — the
pipeline continues with the empty list and `notes_filtered` is 1, not 0. -/
theorem ai_filter_no_revert_counterexample :
    filter_notes defaultFilterConfig [badNote] = [] ∧
    ([badNote] : List NoteEvent) ≠ [] ∧
    (aiFilterQuantizeStage defaultFilterConfig false q16 [("vocals", [badNote])]).1 =
      [("vocals", [])] ∧
    (aiFilterQuantizeStage defaultFilterConfig false q16 [("vocals", [badNote])]).2.1 = 1 := by
  refine ⟨filter_badNote, by simp, ?_, ?_⟩ <;>
    simp [aiFilterQuantizeStage, aiFilterQuantizeStem, filter_badNote]

/-- C2 (amended): in the monophonic path's filtering stage, if
`filter_notes` returns an empty list for a non-empty input, the caller
reverts to the unfiltered input list and the reported `notes_filtered`
count is 0.  (The AI path applies `filter_notes` per stem without this
guard.) -/
theorem mono_filter_revert (cfg : FilterConfig) (notes : List NoteEvent)
    (hne : notes ≠ []) (hemp : filter_notes cfg notes = []) :
    noteFilteringStage cfg notes = (notes, 0) := by
  unfold noteFilteringStage
  rw [if_pos ⟨fun h => hne (List.length_eq_zero.mp h), hemp⟩]

/-- Witness for C2's amended theorem: the default configuration filters out
a lone low-confidence note and the monophonic stage reverts. -/
theorem mono_filter_revert_witness :
    ([badNote] : List NoteEvent) ≠ [] ∧
    filter_notes defaultFilterConfig [badNote] = [] ∧
    noteFilteringStage defaultFilterConfig [badNote] = ([badNote], 0) :=
  ⟨by simp, filter_badNote, mono_filter_revert _ _ (by simp) filter_badNote⟩

/-! ### MIDI generator (`midi/generator.py`) -/

/-- Error categories of `MidiGenerationError` raised by the generator's
validation code, one constructor per distinct `raise` site (the Python
errors carry message strings; the constructor arguments record the
offending index or stem). -/
inductive MidiError
  | emptyNotes
  | negativeTime (i : ℕ)
  | invalidDuration (i : ℕ)
  | invalidMidiNote (i : ℕ)
  | invalidVelocity (i : ℕ)
  | noStems
  | badStemName
  | channelSearchDiverged (stem : String)
deriving DecidableEq, Repr

/-- The checks of one iteration of `MidiGenerator._validate_note_events`,
in source order: negative times, non-positive duration, MIDI range,
velocity range. -/
def _validate_single (i : ℕ) (event : NoteEvent) : Option MidiError :=
  if event.start_time < 0 ∨ event.end_time < 0 then some (MidiError.negativeTime i)
  else if event.end_time ≤ event.start_time then some (MidiError.invalidDuration i)
  else if ¬ (0 ≤ event.midi_note ∧ event.midi_note ≤ 127) then
    some (MidiError.invalidMidiNote i)
  else if ¬ (1 ≤ event.velocity ∧ event.velocity ≤ 127) then
    some (MidiError.invalidVelocity i)
  else none

/-- The indexed loop of `_validate_note_events`: first failing note wins. -/
def _validate_from (i : ℕ) : List NoteEvent → Except MidiError Unit
  | [] => Except.ok ()
  | event :: rest =>
    match _validate_single i event with
    | some err => Except.error err
    | none => _validate_from (i + 1) rest

/-- `MidiGenerator._validate_note_events`: reject an empty list, then check
every note in order. -/
def _validate_note_events (note_events : List NoteEvent) : Except MidiError Unit :=
  if note_events = [] then Except.error MidiError.emptyNotes
  else _validate_from 0 note_events

/-- A `pretty_midi.Note` as built by the generator. -/
structure MidiNote where
  velocity : ℤ
  pitch : ℤ
  note_start : ℚ
  note_stop : ℚ
deriving DecidableEq, Repr

/-- A `pretty_midi.Instrument` as built by the generator; `channel` is the
attribute set only on multi-track output. -/
structure Instrument where
  program : ℕ
  name : String
  is_drum : Bool
  channel : Option ℕ
  notes : List MidiNote
deriving DecidableEq, Repr

/-- The in-memory MIDI document (`pretty_midi.PrettyMIDI` before writing):
initial tempo plus instrument tracks. -/
structure MidiDocument where
  initial_tempo : ℚ
  instruments : List Instrument
deriving DecidableEq, Repr

/-- `MidiGenerator` constructor state: tempo and program. -/
structure MidiGenerator where
  tempo : ℚ
  program : ℕ
deriving DecidableEq, Repr

/-- The default generator (`tempo=120.0, program=0`). -/
def g0 : MidiGenerator := ⟨120, 0⟩

/-- The `pretty_midi.Note` built from a `NoteEvent` in `create_midi` /
`create_multi_track_midi`. -/
def noteToMidi (event : NoteEvent) : MidiNote :=
  ⟨event.velocity, event.midi_note, event.start_time, event.end_time⟩

/-- `MidiGenerator.create_midi`: validate, then emit a single instrument
track with the generator's program and one MIDI note per event.  (File
writing is I/O outside the model.) -/
def MidiGenerator.create_midi (gen : MidiGenerator) (note_events : List NoteEvent)
    (instrument_name : String) : Except MidiError MidiDocument :=
  match _validate_note_events note_events with
  | Except.error e => Except.error e
  | Except.ok _ =>
    Except.ok ⟨gen.tempo,
      [⟨gen.program, instrument_name, false, none, note_events.map noteToMidi⟩]⟩

/-- A `NoteEvent` passing every check of `_validate_note_events`. -/
def validNoteEvent (e : NoteEvent) : Prop :=
  0 ≤ e.start_time ∧ 0 ≤ e.end_time ∧ e.start_time < e.end_time ∧
    0 ≤ e.midi_note ∧ e.midi_note ≤ 127 ∧ 1 ≤ e.velocity ∧ e.velocity ≤ 127

lemma validate_single_eq_none_iff (i : ℕ) (e : NoteEvent) :
    _validate_single i e = none ↔ validNoteEvent e := by
  unfold _validate_single validNoteEvent
  by_cases h1 : e.start_time < 0 ∨ e.end_time < 0
  · rw [if_pos h1]
    simp only [reduceCtorEq, false_iff]
    intro hc
    rcases h1 with h | h
    · linarith [hc.1]
    · linarith [hc.2.1]
  · rw [if_neg h1]
    by_cases h2 : e.end_time ≤ e.start_time
    · rw [if_pos h2]
      simp only [reduceCtorEq, false_iff]
      intro hc
      linarith [hc.2.2.1]
    · rw [if_neg h2]
      by_cases h3 : ¬ (0 ≤ e.midi_note ∧ e.midi_note ≤ 127)
      · rw [if_pos h3]
        simp only [reduceCtorEq, false_iff]
        intro hc
        exact h3 ⟨hc.2.2.2.1, hc.2.2.2.2.1⟩
      · rw [if_neg h3]
        by_cases h4 : ¬ (1 ≤ e.velocity ∧ e.velocity ≤ 127)
        · rw [if_pos h4]
          simp only [reduceCtorEq, false_iff]
          intro hc
          exact h4 ⟨hc.2.2.2.2.2.1, hc.2.2.2.2.2.2⟩
        · rw [if_neg h4]
          push_neg at h1 h3 h4
          simp only [true_iff]
          exact ⟨h1.1, h1.2, not_le.mp h2, h3.1, h3.2, h4.1, h4.2⟩

lemma validate_from_ok_iff (l : List NoteEvent) (i : ℕ) :
    _validate_from i l = Except.ok () ↔ ∀ e ∈ l, validNoteEvent e := by
  induction l generalizing i with
  | nil => simp [_validate_from]
  | cons e rest ih =>
    simp only [_validate_from, List.mem_cons]
    rcases h : _validate_single i e with _ | err
    · rw [validate_single_eq_none_iff] at h
      simp only [ih]
      constructor
      · intro hall x hx
        rcases hx with rfl | hx
        · exact h
        · exact hall x hx
      · intro hall x hx
        exact hall x (Or.inr hx)
    · simp only [reduceCtorEq, false_iff]
      intro hall
      have := (validate_single_eq_none_iff i e).mpr (hall e (Or.inl rfl))
      rw [this] at h
      exact Option.noConfusion h

/-- A note with `midi_note = 128` and everything else valid. -/
def note128 : NoteEvent := ⟨0, 1, 440, 128, 90, 1⟩

/-- A note with `velocity = 0` and everything else valid. -/
def noteVel0 : NoteEvent := ⟨0, 1, 440, 69, 0, 1⟩

/-- A note with `end_time ≤ start_time` (both 0) and everything else
valid. -/
def noteBadDur : NoteEvent := ⟨0, 0, 440, 69, 90, 1⟩

/-- A fully valid note (A4, half of velocity range). -/
def vnote : NoteEvent := ⟨0, 1, 440, 69, 90, 1⟩

/-- C7: `create_midi` fails exactly when the note list is empty or some
note has a negative time, `end_time ≤ start_time`, `midi_note` outside
`[0,127]`, or `velocity` outside `[1,127]`; and the canonical rejects —
empty list, `midi_note=128`, `velocity=0`, `end_time ≤ start_time` — each
produce a distinct, stable error category. -/
theorem create_midi_error_iff :
    (∀ (gen : MidiGenerator) (name : String) (notes : List NoteEvent),
        (∃ d, gen.create_midi notes name = Except.ok d) ↔
          notes ≠ [] ∧ ∀ e ∈ notes, validNoteEvent e) ∧
    g0.create_midi [] "Acoustic Grand Piano" = Except.error MidiError.emptyNotes ∧
    g0.create_midi [note128] "Acoustic Grand Piano" =
      Except.error (MidiError.invalidMidiNote 0) ∧
    g0.create_midi [noteVel0] "Acoustic Grand Piano" =
      Except.error (MidiError.invalidVelocity 0) ∧
    g0.create_midi [noteBadDur] "Acoustic Grand Piano" =
      Except.error (MidiError.invalidDuration 0) := by
  refine ⟨?_, ?_, ?_, ?_, ?_⟩
  · intro gen name notes
    unfold MidiGenerator.create_midi _validate_note_events
    by_cases hnil : notes = []
    · rw [if_pos hnil]
      simp [hnil]
    · rw [if_neg hnil]
      cases h : _validate_from 0 notes with
      | error err =>
        simp only [h, reduceCtorEq, exists_false, false_iff, not_and]
        intro _ hall
        rw [(validate_from_ok_iff notes 0).mpr hall] at h
        exact Except.noConfusion h
      | ok u =>
        cases u
        have hall := (validate_from_ok_iff notes 0).mp h
        simp only [h]
        constructor
        · intro _
          exact ⟨hnil, hall⟩
        · intro _
          exact ⟨_, rfl⟩
  · rfl
  · simp only [MidiGenerator.create_midi, _validate_note_events, _validate_from,
      _validate_single, note128, g0]
    norm_num
  · simp only [MidiGenerator.create_midi, _validate_note_events, _validate_from,
      _validate_single, noteVel0, g0]
    norm_num
  · simp only [MidiGenerator.create_midi, _validate_note_events, _validate_from,
      _validate_single, noteBadDur, g0]
    norm_num

/-- Witness for C7: a fully valid single-note list is accepted. -/
theorem create_midi_error_iff_witness :
    ∃ d, g0.create_midi [vnote] "Acoustic Grand Piano" = Except.ok d :=
  (create_midi_error_iff.1 g0 "Acoustic Grand Piano" [vnote]).mpr
    ⟨by simp, by
      intro e he
      simp only [List.mem_singleton] at he
      subst he
      norm_num [validNoteEvent, vnote]⟩

/-! ### Multi-track MIDI generation (`midi/generator.py`) -/

/-- `InstrumentMapping` dataclass: how a separated stem is rendered. -/
structure InstrumentMapping where
  stem_name : String
  program : ℕ
  is_drum : Bool
deriving DecidableEq, Repr

/-- `DEFAULT_INSTRUMENT_MAP` from `midi/generator.py`. -/
def DEFAULT_INSTRUMENT_MAP : List (String × InstrumentMapping) :=
  [("vocals", ⟨"vocals", 52, false⟩),
   ("drums", ⟨"drums", 0, true⟩),
   ("bass", ⟨"bass", 32, false⟩),
   ("other", ⟨"other", 48, false⟩),
   ("guitar", ⟨"guitar", 26, false⟩),
   ("piano", ⟨"piano", 0, false⟩)]

/-- Whether the first list is a prefix of the second (character model of
Python substring search). -/
def charsStartWith : List Char → List Char → Bool
  | [], _ => true
  | _ :: _, [] => false
  | c :: cs, d :: ds => c = d && charsStartWith cs ds

/-- Whether the first list occurs as a contiguous sublist of the second. -/
def charsContain (sub : List Char) : List Char → Bool
  | [] => charsStartWith sub []
  | d :: ds => charsStartWith sub (d :: ds) || charsContain sub ds

/-- Python's `sub in s` substring test. -/
def pyInStr (sub s : String) : Bool := charsContain sub.toList s.toList

/-- Python's `str.lower()`, modelled character-wise. -/
def strToLower (s : String) : String := String.mk (s.toList.map Char.toLower)

/-- `MidiGenerator.get_instrument_map_for_stems`: look up the lowercased
stem name in the builtin default map; unknown names get the generator's
program and are flagged as drums when the name contains
"drum"/"drums"/"percussion". -/
def MidiGenerator.get_instrument_map_for_stems (gen : MidiGenerator)
    (stem_names : List String) : List (String × InstrumentMapping) :=
  stem_names.map fun name =>
    let lower := strToLower name
    match DEFAULT_INSTRUMENT_MAP.lookup lower with
    | some m => (name, m)
    | none =>
      (name, ⟨name, gen.program,
        pyInStr "drum" lower || pyInStr "drums" lower || pyInStr "percussion" lower⟩)

/-- `MidiGenerator._validate_multi_track_input`: reject an empty stem map
and empty stem names (the `isinstance` checks of the source are vacuous in
the typed model). -/
def _validate_multi_track_input (stems_notes : List (String × List NoteEvent)) :
    Except MidiError Unit :=
  if stems_notes = [] then Except.error MidiError.noStems
  else if stems_notes.any (fun p => p.1 = "") then Except.error MidiError.badStemName
  else Except.ok ()

/-- The channel-search `while` loop of `create_multi_track_midi`
(`generator.py:183-187`): starting from channel 0, while the channel is
used or equals 9, advance modulo 16 — but the loop body `break`s as soon
as the incremented channel is unused, without re-checking it against 9.
One increment consumes one unit of fuel; 16 units exhaust the cycle, and
`none` models the non-terminating Python loop. -/
def findAvailableChannel (used : List ℕ) : ℕ → ℕ → Option ℕ
  | fuel, channel =>
    if channel ∈ used ∨ channel = 9 then
      match fuel with
      | 0 => none
      | f + 1 =>
        let c2 := (channel + 1) % 16
        if c2 ∈ used then findAvailableChannel used f c2 else some c2
    else some channel

/-- The per-stem loop of `create_multi_track_midi` (`generator.py:160-206`):
skip empty stems; drums get channel 9 and program 0; non-drum stems get the
channel found by the `while` loop; each non-empty stem's notes are
validated and appended.  `used` threads the `used_channels` set. -/
def multiTrackTracks (gen : MidiGenerator) (mapping : List (String × InstrumentMapping)) :
    List (String × List NoteEvent) → List ℕ → Except MidiError (List Instrument)
  | [], _ => Except.ok []
  | (stem_name, note_list) :: rest, used =>
    if note_list = [] then multiTrackTracks gen mapping rest used
    else
      let instrument_cfg := match mapping.lookup stem_name with
        | some m => m
        | none => ⟨stem_name, gen.program, false⟩
      if instrument_cfg.is_drum then
        match _validate_note_events note_list with
        | Except.error e => Except.error e
        | Except.ok _ =>
          match multiTrackTracks gen mapping rest (9 :: used) with
          | Except.error e => Except.error e
          | Except.ok tracks =>
            Except.ok (⟨0, stem_name, true, some 9, note_list.map noteToMidi⟩ :: tracks)
      else
        match findAvailableChannel used 16 0 with
        | none => Except.error (MidiError.channelSearchDiverged stem_name)
        | some channel =>
          match _validate_note_events note_list with
          | Except.error e => Except.error e
          | Except.ok _ =>
            match multiTrackTracks gen mapping rest (channel :: used) with
            | Except.error e => Except.error e
            | Except.ok tracks =>
              Except.ok (⟨instrument_cfg.program, stem_name, false, some channel,
                note_list.map noteToMidi⟩ :: tracks)

/-- `MidiGenerator.create_multi_track_midi`: validate the stem map, build
the instrument mapping (the builtin one when no override is given), then
run the per-stem loop with an empty used-channel set. -/
def MidiGenerator.create_multi_track_midi (gen : MidiGenerator)
    (stems_notes : List (String × List NoteEvent))
    (instrument_map : Option (List (String × InstrumentMapping))) :
    Except MidiError MidiDocument :=
  match _validate_multi_track_input stems_notes with
  | Except.error e => Except.error e
  | Except.ok _ =>
    let mapping := match instrument_map with
      | some m => m
      | none => gen.get_instrument_map_for_stems (stems_notes.map Prod.fst)
    match multiTrackTracks gen mapping stems_notes [] with
    | Except.error e => Except.error e
    | Except.ok instruments => Except.ok ⟨gen.tempo, instruments⟩

/-- Ten stems, none of them drums, each with one valid note. -/
def tenStems : List (String × List NoteEvent) :=
  [("a0", [vnote]), ("a1", [vnote]), ("a2", [vnote]), ("a3", [vnote]),
   ("a4", [vnote]), ("a5", [vnote]), ("a6", [vnote]), ("a7", [vnote]),
   ("a8", [vnote]), ("a9", [vnote])]

/-- C1 (code bug): with ten non-drum stems, `create_multi_track_midi`
assigns channels 0–8 to the first nine stems and then channel 9 — the
reserved drum channel — to the tenth NON-drum stem: the channel loop's
`break` accepts an unused channel without re-checking it against 9.  This
contradicts the claim (and the code's own comments) that no non-drum
instrument is ever assigned channel 9. -/
theorem create_multi_track_nondrum_on_channel9 :
    (g0.create_multi_track_midi tenStems none).toOption.map
        (fun d => d.instruments.map fun inst => (inst.name, inst.is_drum, inst.channel)) =
      some [("a0", false, some 0), ("a1", false, some 1), ("a2", false, some 2),
        ("a3", false, some 3), ("a4", false, some 4), ("a5", false, some 5),
        ("a6", false, some 6), ("a7", false, some 7), ("a8", false, some 8),
        ("a9", false, some 9)] := by
  decide

/-- Both spec scenarios for drums: a drum stem is on channel 9 with
`is_drum=true`, and an empty stem is silently skipped. -/
example :
    (g0.create_multi_track_midi [("drums", [vnote]), ("bass", [])] none).toOption.map
        (fun d => d.instruments.map fun inst => (inst.name, inst.is_drum, inst.channel)) =
      some [("drums", true, some 9)] := by
  decide

/-! ### Velocity model (`audio/pitch_detector.py`, `_compute_velocity`) -/

/-- Truncation toward zero: Python `int()` applied to a float. -/
noncomputable def pyIntTrunc (x : ℝ) : ℤ := if 0 ≤ x then ⌊x⌋ else ⌈x⌉

/-- `np.clip(x, lo, hi)`. -/
noncomputable def npClip (x lo hi : ℝ) : ℝ := max lo (min x hi)

/-- Interface model of the librosa RMS capability: `librosa.feature.rms`
followed by `np.mean` in the source is modelled as the root-mean-square
energy of the segment (0 for an empty segment, as `0/0 = 0`). -/
noncomputable def rmsEnergy (seg : List ℝ) : ℝ :=
  Real.sqrt ((seg.map fun x => x^2).sum / seg.length)

/-- `PitchDetector._get_onset_segment`: the first 30 ms of a segment
(`int(0.03 * sample_rate)` samples, modelled exactly as `3*sr/100`), or the
whole segment when it is shorter. -/
def _get_onset_segment (segment : List ℝ) (sample_rate : ℕ) : List ℝ :=
  let onset_samples := 3 * sample_rate / 100
  if segment.length ≤ onset_samples then segment else segment.take onset_samples

/-- The segment extraction of `_compute_velocity`
(`pitch_detector.py:274-283`): clamp `int(start*sr)` into `[0, len-1]`,
clamp `int(end*sr)` into `[start+1, len]`, slice. -/
noncomputable def segmentOf (samples : List ℝ) (sample_rate : ℕ)
    (start_time end_time : ℝ) : List ℝ :=
  let start_sample : ℤ :=
    max 0 (min (pyIntTrunc (start_time * sample_rate)) (samples.length - 1))
  let end_sample : ℤ :=
    max (start_sample + 1) (min (pyIntTrunc (end_time * sample_rate)) samples.length)
  (samples.drop start_sample.toNat).take (end_sample - start_sample).toNat

/-- The RMS blend of `_compute_velocity` (`pitch_detector.py:289-317`):
onset RMS (0 for an empty onset window) and sustain RMS combined with
`onset_weight`. -/
noncomputable def weightedRms (segment : List ℝ) (sample_rate : ℕ)
    (onset_weight : ℝ) : ℝ :=
  let onset_segment := _get_onset_segment segment sample_rate
  let onset_rms := if 0 < onset_segment.length then rmsEnergy onset_segment else 0
  let sustain_rms := rmsEnergy segment
  onset_weight * onset_rms + (1 - onset_weight) * sustain_rms

/-- The velocity curve of `_compute_velocity` (`pitch_detector.py:325-338`):
for positive RMS, `int(np.clip(40 + 70 * (tanh(rms*2)*0.5)**0.4, 40, 110))`;
otherwise the minimum velocity 40. -/
noncomputable def velocityFromRms (weighted_rms : ℝ) : ℤ :=
  if 0 < weighted_rms then
    pyIntTrunc (npClip (40 + 70 * Real.rpow (Real.tanh (weighted_rms * 2) * (1/2)) (2/5)) 40 110)
  else 40

/-- `PitchDetector._compute_velocity`: slice the note's segment out of the
samples, return 64 for an empty slice, otherwise map the weighted RMS
through the velocity curve. -/
noncomputable def _compute_velocity (samples : List ℝ) (sample_rate : ℕ)
    (start_time end_time : ℝ) (onset_weight : ℝ) : ℤ :=
  let segment := segmentOf samples sample_rate start_time end_time
  if segment.length = 0 then 64
  else velocityFromRms (weightedRms segment sample_rate onset_weight)

lemma pyIntTrunc_clip_mem (x : ℝ) :
    40 ≤ pyIntTrunc (npClip x 40 110) ∧ pyIntTrunc (npClip x 40 110) ≤ 110 := by
  have h40 : (40 : ℝ) ≤ npClip x 40 110 := le_max_left _ _
  have h110 : npClip x 40 110 ≤ 110 := max_le (by norm_num) (min_le_right _ _)
  have hpos : (0 : ℝ) ≤ npClip x 40 110 := le_trans (by norm_num) h40
  unfold pyIntTrunc
  rw [if_pos hpos]
  refine ⟨Int.le_floor.mpr (by exact_mod_cast h40), ?_⟩
  have hf := Int.floor_le_floor h110
  norm_num at hf
  exact hf

lemma velocityFromRms_mem (weighted_rms : ℝ) :
    40 ≤ velocityFromRms weighted_rms ∧ velocityFromRms weighted_rms ≤ 110 := by
  unfold velocityFromRms
  split
  · exact pyIntTrunc_clip_mem _
  · norm_num

lemma segmentOf_length_pos (samples : List ℝ) (sample_rate : ℕ) (s e : ℝ)
    (hne : samples ≠ []) : 0 < (segmentOf samples sample_rate s e).length := by
  have hL : 1 ≤ samples.length := List.length_pos.mpr hne
  unfold segmentOf
  simp only [List.length_take, List.length_drop]
  set L := samples.length with hLdef
  set A : ℤ := max 0 (min (pyIntTrunc (s * sample_rate)) ((L : ℤ) - 1)) with hA
  set B : ℤ := max (A + 1) (min (pyIntTrunc (e * sample_rate)) (L : ℤ)) with hB
  have h1 : (0 : ℤ) ≤ A := le_max_left _ _
  have h2 : A ≤ (L : ℤ) - 1 := max_le (by omega) (min_le_right _ _)
  have h3 : A + 1 ≤ B := le_max_left _ _
  omega

lemma segmentOf_subset (samples : List ℝ) (sample_rate : ℕ) (s e : ℝ) :
    ∀ x ∈ segmentOf samples sample_rate s e, x ∈ samples := by
  intro x hx
  unfold segmentOf at hx
  exact ((List.take_sublist _ _).trans (List.drop_sublist _ _)).subset hx

lemma rmsEnergy_zeros (seg : List ℝ) (hz : ∀ x ∈ seg, x = 0) : rmsEnergy seg = 0 := by
  unfold rmsEnergy
  have hsum : (seg.map fun x => x^2).sum = 0 := by
    apply List.sum_eq_zero
    intro y hy
    obtain ⟨x, hx, rfl⟩ := List.mem_map.mp hy
    rw [hz x hx]
    norm_num
  rw [hsum]
  simp

lemma weightedRms_zeros (segment : List ℝ) (sample_rate : ℕ) (w : ℝ)
    (hz : ∀ x ∈ segment, x = 0) : weightedRms segment sample_rate w = 0 := by
  simp only [weightedRms]
  have honset : ∀ x ∈ _get_onset_segment segment sample_rate, x = 0 := by
    intro x hx
    simp only [_get_onset_segment] at hx
    split at hx
    · exact hz x hx
    · exact hz x ((List.take_sublist _ _).subset hx)
  have h1 : (if 0 < (_get_onset_segment segment sample_rate).length then
      rmsEnergy (_get_onset_segment segment sample_rate) else 0) = 0 := by
    split
    · exact rmsEnergy_zeros _ honset
    · rfl
  rw [h1, rmsEnergy_zeros segment hz]
  ring

/-- A silent (all-zero, non-empty) sample buffer yields velocity 40: the
weighted RMS is 0, so the `weighted_rms > 0` branch is skipped. -/
lemma compute_velocity_silent (samples : List ℝ) (sample_rate : ℕ) (s e w : ℝ)
    (hne : samples ≠ []) (hz : ∀ x ∈ samples, x = 0) :
    _compute_velocity samples sample_rate s e w = 40 := by
  unfold _compute_velocity
  rw [if_neg (Nat.pos_iff_ne_zero.mp (segmentOf_length_pos samples sample_rate s e hne))]
  have hzseg : ∀ x ∈ segmentOf samples sample_rate s e, x = 0 :=
    fun x hx => hz x (segmentOf_subset samples sample_rate s e x hx)
  rw [weightedRms_zeros _ _ _ hzseg]
  unfold velocityFromRms
  norm_num

lemma compute_velocity_empty (sample_rate : ℕ) (s e w : ℝ) :
    _compute_velocity [] sample_rate s e w = 64 := by
  unfold _compute_velocity segmentOf
  simp

/-- Counterexample for C3: on a silent non-empty segment (a single zero
sample), `_compute_velocity` returns 40, not the claimed 64. -/
theorem compute_velocity_silent_not_64 :
    ¬ (_compute_velocity [0] 44100 0 1 (7/10) = 64) := by
  rw [compute_velocity_silent [0] 44100 0 1 (7/10) (by simp) (by simp)]
  norm_num

/-- C3 (amended): `_compute_velocity` always returns an integer in
`[40, 110]`; a zero-length segment yields exactly 64; a silent (all-zero,
non-empty) buffer yields the minimum velocity 40 rather than 64. -/
theorem compute_velocity_amended :
    (∀ (samples : List ℝ) (sample_rate : ℕ) (s e w : ℝ),
        40 ≤ _compute_velocity samples sample_rate s e w ∧
          _compute_velocity samples sample_rate s e w ≤ 110) ∧
    (∀ (sample_rate : ℕ) (s e w : ℝ), _compute_velocity [] sample_rate s e w = 64) ∧
    (∀ (samples : List ℝ) (sample_rate : ℕ) (s e w : ℝ), samples ≠ [] →
        (∀ x ∈ samples, x = 0) → _compute_velocity samples sample_rate s e w = 40) := by
  refine ⟨?_, compute_velocity_empty, compute_velocity_silent⟩
  intro samples sample_rate s e w
  simp only [_compute_velocity]
  split
  · norm_num
  · exact velocityFromRms_mem _

/-- Witness for C3's amended theorem: evaluated on the one-sample silent
buffer, `_compute_velocity` is 40. -/
theorem compute_velocity_amended_witness :
    ([(0 : ℝ)] ≠ [] ∧ ∀ x ∈ [(0 : ℝ)], x = 0) ∧
      _compute_velocity [0] 44100 0 1 (7/10) = 40 :=
  ⟨⟨by simp, by simp⟩,
    compute_velocity_amended.2.2 [0] 44100 0 1 (7/10) (by simp) (by simp)⟩

/-! ### Tempo-confidence estimate (`audio/tempo_detector.py`) -/

/-- `np.mean` over reals (0 for the empty list, as `0/0 = 0` models the
guarded uses in the source). -/
noncomputable def listMeanR (l : List ℝ) : ℝ := l.sum / l.length

/-- `np.std` over reals: population standard deviation. -/
noncomputable def npStdR (l : List ℝ) : ℝ :=
  Real.sqrt (listMeanR (l.map fun x => (x - listMeanR l)^2))

/-- `np.diff`: consecutive differences. -/
def npDiff (l : List ℝ) : List ℝ := l.zipWith (fun a b => b - a) l.tail

section EstimateConfidence

open Classical

/-- `TempoDetector._estimate_confidence`: 0 for fewer than 2 beats or a
zero mean interval; otherwise `max(0, 1 - cv)` with `cv = std/mean`,
halved when below 0.3, clipped into `[0, 1]`. -/
noncomputable def _estimate_confidence (beat_times : List ℝ) : ℝ :=
  if beat_times.length < 2 then 0
  else
    let intervals := npDiff beat_times
    if intervals.length = 0 then 0
    else
      let mean_interval := listMeanR intervals
      let std_interval := npStdR intervals
      if mean_interval = 0 then 0
      else
        let cv := std_interval / mean_interval
        let confidence := max 0 (1 - cv)
        let confidence2 := if confidence < 3/10 then confidence * (1/2) else confidence
        npClip confidence2 0 1

/-- The confidence formula as the spec words it: `clamp(1 - cv, 0, 1)`
with `cv = std/mean` of the inter-beat intervals, additionally halved when
the clamped value is below 0.3. -/
noncomputable def claimedConfidence (beat_times : List ℝ) : ℝ :=
  let cv := npStdR (npDiff beat_times) / listMeanR (npDiff beat_times)
  let c := max 0 (min (1 - cv) 1)
  if c < 3/10 then c * (1/2) else c

end EstimateConfidence

lemma conf_normalize (c : ℝ) :
    npClip (if max 0 c < 3/10 then max 0 c * (1/2) else max 0 c) 0 1 =
      (if max 0 (min c 1) < 3/10 then max 0 (min c 1) * (1/2) else max 0 (min c 1)) := by
  unfold npClip
  rcases le_or_lt c 1 with hc | hc
  · rw [min_eq_left hc]
    by_cases h : max 0 c < 3/10
    · rw [if_pos h]
      have h0 : (0 : ℝ) ≤ max 0 c := le_max_left _ _
      rw [min_eq_left (by linarith), max_eq_right (by linarith)]
    · rw [if_neg h]
      have h1 : max 0 c ≤ 1 := max_le (by norm_num) hc
      have h0 : (0 : ℝ) ≤ max 0 c := le_max_left _ _
      rw [min_eq_left h1, max_eq_right h0]
  · have hm : max 0 c = c := max_eq_right (by linarith)
    have hm1 : max 0 (min c 1) = 1 := by
      rw [min_eq_right (le_of_lt hc), max_eq_right (by norm_num)]
    rw [hm, hm1]
    rw [if_neg (by linarith), if_neg (by norm_num)]
    rw [min_eq_right (le_of_lt hc), max_eq_right (by norm_num)]

/-- C8: the tempo-detection confidence is 0 for fewer than 2 beats, equals
the spec's `clamp(1 - std/mean, 0, 1)`-then-halve-below-0.3 formula
whenever the mean inter-beat interval is nonzero, and always lies in
`[0, 1]`. -/
theorem estimate_confidence_spec (beat_times : List ℝ) :
    (0 ≤ _estimate_confidence beat_times ∧ _estimate_confidence beat_times ≤ 1) ∧
    (beat_times.length < 2 → _estimate_confidence beat_times = 0) ∧
    (2 ≤ beat_times.length → listMeanR (npDiff beat_times) ≠ 0 →
      _estimate_confidence beat_times = claimedConfidence beat_times) := by
  refine ⟨?_, ?_, ?_⟩
  · simp only [_estimate_confidence, npClip]
    split_ifs <;> norm_num
  · intro h
    simp only [_estimate_confidence, if_pos h]
  · intro hlen hmean
    have hnl : ¬ beat_times.length < 2 := not_lt.mpr hlen
    have hdiff : (npDiff beat_times).length ≠ 0 := by
      unfold npDiff
      rw [List.length_zipWith, List.length_tail]
      omega
    simp only [_estimate_confidence, claimedConfidence, if_neg hnl, if_neg hdiff,
      if_neg hmean]
    exact conf_normalize (1 - npStdR (npDiff beat_times) / listMeanR (npDiff beat_times))

lemma npDiff_012 : npDiff [(0 : ℝ), 1, 2] = [1, 1] := by
  norm_num [npDiff]

lemma meanDiff_012 : listMeanR (npDiff [(0 : ℝ), 1, 2]) = 1 := by
  rw [npDiff_012]
  norm_num [listMeanR]

/-- Witness for C8: three evenly spaced beats have nonzero mean interval
and the code's confidence equals the spec's formula there. -/
theorem estimate_confidence_spec_witness :
    2 ≤ ([(0 : ℝ), 1, 2] : List ℝ).length ∧
      listMeanR (npDiff [(0 : ℝ), 1, 2]) ≠ 0 ∧
      _estimate_confidence [(0 : ℝ), 1, 2] = claimedConfidence [(0 : ℝ), 1, 2] :=
  ⟨by norm_num, by rw [meanDiff_012]; norm_num,
    (estimate_confidence_spec [(0 : ℝ), 1, 2]).2.2 (by norm_num)
      (by rw [meanDiff_012]; norm_num)⟩

/-! ### Pipeline orchestration (`audio/pipeline.py`) -/

/-- `PitchFrame` from `audio/pitch_detector.py`. -/
structure PitchFrame where
  time : ℝ
  frequency : Option ℝ
  voiced : Bool
  confidence : ℝ

/-- The fields of `TempoInfo` the pipeline consumes. -/
structure TempoInfo where
  tempo : ℚ
  beat_times : List ℚ

/-- `PipelineResult` from `audio/pipeline.py` (output path and wall-clock
timing are I/O outside the model). -/
structure PipelineResult where
  success : Bool
  note_count : ℕ
  duration : ℚ
  error_message : Option String
  detected_tempo : Option ℚ
  beat_times : Option (List ℚ)
  quantization_applied : Bool
  notes_filtered : ℕ
  transcription_method : String
  stem_count : ℕ
  separation_enabled : Bool
deriving Repr

/-- The `PipelineResult` created at the top of `process()` with the
dataclass defaults. -/
def initialResult : PipelineResult :=
  ⟨false, 0, 0, none, none, none, false, 0, "monophonic", 1, false⟩

/-- `PitchDetector.detect_pitch`: reject an empty buffer with the
`ValueError` message `"Audio data is empty"`; otherwise the pYIN library
capability (a parameter of the model) produces the frames. -/
def detect_pitch (pyin : List ℝ → List PitchFrame) (samples : List ℝ) :
    Except String (List PitchFrame) :=
  if samples.length = 0 then Except.error "Audio data is empty"
  else Except.ok (pyin samples)

/-- The library-backed stages consumed by the monophonic pipeline, at their
interface boundary (spec §6): pYIN framing, onset-based segmentation, and
tempo detection (which may fail). -/
structure MonoCollaborators where
  pyin : List ℝ → List PitchFrame
  segment : List PitchFrame → List ℝ → ℚ → List NoteEvent
  tempo_detect : List ℝ → Except String TempoInfo

/-- The pipeline constructor options that the monophonic path reads. -/
structure PipelineConfig where
  tempo : ℚ
  min_note_duration : ℚ
  detect_tempo : Bool
  quantization_enabled : Bool
  quantization_grid : QuantizationGrid
  filter_config : FilterConfig

/-- The quantization stage of `_process_monophonic`
(`pipeline.py:374-397`): quantize a non-empty list; if quantization were to
empty it, keep the unquantized notes and leave `quantization_applied`
false. -/
def quantizationStage (q : NoteQuantizer) (note_events : List NoteEvent) :
    List NoteEvent × Bool :=
  if note_events ≠ [] then
    let quantized := q.quantize_notes note_events
    if quantized = [] then (note_events, false)
    else (quantized, true)
  else (note_events, false)

/-- The `note_count` entry of `MidiGenerator.get_midi_info` on a flat
list. -/
def get_midi_info_note_count (note_events : List NoteEvent) : ℕ := note_events.length

/-- The `duration` entry of `MidiGenerator.get_midi_info` on a flat list:
`max(end) - min(start)`, 0 for an empty list. -/
def get_midi_info_duration (note_events : List NoteEvent) : ℚ :=
  if note_events = [] then 0
  else ((note_events.map NoteEvent.end_time).max?.getD 0) -
    ((note_events.map NoteEvent.start_time).min?.getD 0)

/-- The `MidiGenerationError` message text of each error category (the
source interpolates the offending values into the message; the model keeps
the stable prefix). -/
def MidiError.message : MidiError → String
  | MidiError.emptyNotes => "No note events provided"
  | MidiError.negativeTime i => "Note " ++ toString i ++ " has negative time values"
  | MidiError.invalidDuration i => "Note " ++ toString i ++ " has invalid duration"
  | MidiError.invalidMidiNote i => "Note " ++ toString i ++ " has invalid MIDI note"
  | MidiError.invalidVelocity i => "Note " ++ toString i ++ " has invalid velocity"
  | MidiError.noStems => "No stems provided for multi-track MIDI generation"
  | MidiError.badStemName => "Stem names must be non-empty strings"
  | MidiError.channelSearchDiverged stem => "channel search diverged for stem " ++ stem

/-- `process()` on the monophonic path (`pipeline.py:132-187` +
`_process_monophonic`, `pipeline.py:305-419`): each stage in source order,
with the source's failure policy — pitch-detection/segmentation failures
abort with a wrapped `ValueError` message, tempo-detection failure is
swallowed, filtering reverts on total removal, quantization keeps the
unquantized list if it were emptied, and MIDI-generation failure aborts
with the generator's message. -/
noncomputable def processMono (col : MonoCollaborators) (cfg : PipelineConfig)
    (samples : List ℝ) : PipelineResult :=
  match detect_pitch col.pyin samples with
  | Except.error msg =>
    { initialResult with error_message := some ("Pitch detection failed: " ++ msg) }
  | Except.ok pitch_frames =>
    if pitch_frames.isEmpty then
      { initialResult with
          error_message := some "Pitch detection failed: No pitch detected in audio" }
    else
      let note_events := col.segment pitch_frames samples cfg.min_note_duration
      if note_events = [] then
        { initialResult with
            error_message := some "Note segmentation failed: No notes detected in audio" }
      else
        let tempoResult : Option TempoInfo :=
          if cfg.detect_tempo then (col.tempo_detect samples).toOption else none
        let result1 : PipelineResult :=
          match tempoResult with
          | some ti =>
            { initialResult with
                detected_tempo := some ti.tempo
                beat_times := some ti.beat_times }
          | none => initialResult
        let fs := noteFilteringStage cfg.filter_config note_events
        let result2 := { result1 with notes_filtered := fs.2 }
        let quantize_tempo := match tempoResult with
          | some ti => ti.tempo
          | none => cfg.tempo
        let qs :=
          if cfg.quantization_enabled then
            quantizationStage ⟨cfg.quantization_grid, quantize_tempo, 0⟩ fs.1
          else (fs.1, false)
        let result3 := { result2 with quantization_applied := qs.2 }
        let gen : MidiGenerator := ⟨quantize_tempo, 0⟩
        match gen.create_midi qs.1 "Acoustic Grand Piano" with
        | Except.error e =>
          let msg := "MIDI generation failed: Failed to create MIDI file: " ++ e.message
          { result3 with success := false, error_message := some msg }
        | Except.ok _ =>
          { result3 with
              success := true
              note_count := get_midi_info_note_count qs.1
              duration := get_midi_info_duration qs.1
              transcription_method := "monophonic"
              separation_enabled := false
              stem_count := 1 }

/-- C9: on an empty sample buffer, `detect_pitch` fails with the
`ValueError` `"Audio data is empty"`, and for every collaborator
implementation and configuration the pipeline result has `success=false`,
an `error_message` containing `"empty"`, and `note_count=0`. -/
theorem empty_buffer_pipeline (col : MonoCollaborators) (cfg : PipelineConfig) :
    detect_pitch col.pyin [] = Except.error "Audio data is empty" ∧
    (processMono col cfg []).success = false ∧
    (processMono col cfg []).error_message =
      some "Pitch detection failed: Audio data is empty" ∧
    (∃ msg, (processMono col cfg []).error_message = some msg ∧
      pyInStr "empty" msg = true) ∧
    (processMono col cfg []).note_count = 0 := by
  have hdp : detect_pitch col.pyin [] = Except.error "Audio data is empty" := by
    simp [detect_pitch]
  have hpm : processMono col cfg [] =
      { initialResult with
          error_message := some "Pitch detection failed: Audio data is empty" } := by
    unfold processMono
    rw [hdp]
    rfl
  have hsucc : (processMono col cfg []).success = false := by rw [hpm]; rfl
  have herr : (processMono col cfg []).error_message =
      some "Pitch detection failed: Audio data is empty" := by rw [hpm]
  have hcount : (processMono col cfg []).note_count = 0 := by rw [hpm]; rfl
  exact ⟨hdp, hsucc, herr, ⟨_, herr, by decide⟩, hcount⟩

/-- C10: `quantize_notes` returns exactly one note per input note for every
grid (including `NONE`), so it can never turn a non-empty list into an
empty one, and the pipeline's "quantization removed all notes" fallback
branch is never taken for non-empty input. -/
theorem quantize_notes_preserves_length :
    (∀ (q : NoteQuantizer) (notes : List NoteEvent),
        (q.quantize_notes notes).length = notes.length) ∧
    (∀ (q : NoteQuantizer) (notes : List NoteEvent),
        notes ≠ [] → q.quantize_notes notes ≠ []) ∧
    (∀ (q : NoteQuantizer) (notes : List NoteEvent), notes ≠ [] →
        quantizationStage q notes = (q.quantize_notes notes, true)) := by
  have hlen : ∀ (q : NoteQuantizer) (notes : List NoteEvent),
      (q.quantize_notes notes).length = notes.length := by
    intro q notes
    unfold NoteQuantizer.quantize_notes
    split
    · rfl
    · exact List.length_map _ _
  have hne : ∀ (q : NoteQuantizer) (notes : List NoteEvent),
      notes ≠ [] → q.quantize_notes notes ≠ [] := by
    intro q notes h
    intro hcon
    apply h
    have := hlen q notes
    rw [hcon] at this
    exact List.length_eq_zero.mp this.symm
  refine ⟨hlen, hne, ?_⟩
  intro q notes h
  unfold quantizationStage
  rw [if_pos h, if_neg (hne q notes h)]

/-- Witness for C10: at the sixteenth grid the stage quantizes the spec's
scenario note and reports success. -/
theorem quantize_notes_preserves_length_witness :
    ([specNote] : List NoteEvent) ≠ [] ∧
      quantizationStage q16 [specNote] = (q16.quantize_notes [specNote], true) :=
  ⟨by simp, quantize_notes_preserves_length.2.2 q16 [specNote] (by simp)⟩

end MP3paraMIDI
